import Mathlib

/-!
Shallow embedding of the slog-kickstarter builder (src/lib.rs): builder state,
runtime directive parsing and level resolution, output-format selection, the
root logger's context fields, the JSON key set, the stdlog bridge installation
and the async emission boundary.  Behaviour implemented by dependencies
(env-logger filtering and parsing, slog-stdlog installation, slog-async,
slog's level rendering and timestamp formatting) is modelled from the
specification, as marked on each such definition.
-/

namespace SlogKick

/-- Severity levels, totally ordered from Trace (least severe) to Critical
(most severe); used both to classify records and as filter thresholds. -/
inductive Level where
  | trace
  | debug
  | info
  | warn
  | error
  | critical
deriving DecidableEq, Repr

/-- Numeric severity index: Trace = 0 up to Critical = 5. -/
def Level.idx : Level → Nat
  | .trace => 0
  | .debug => 1
  | .info => 2
  | .warn => 3
  | .error => 4
  | .critical => 5

/-- Modelled from the spec: a record is retained only if its own level is at
least the effective threshold of its origin module (§4.1). -/
def retains (threshold lvl : Level) : Bool :=
  decide (threshold.idx ≤ lvl.idx)

/-- A directive rule: either a bare global level (module part `none`) or a
`module=level` rule (module part `some m`). -/
abbrev Rule := Option String × Level

/-- Modelled from the spec: parsing of a level name inside a directive rule
(the parser lives in the env-logger dependency, outside src/). -/
def parseLevel (s : String) : Option Level :=
  if s = "trace" then some .trace
  else if s = "debug" then some .debug
  else if s = "info" then some .info
  else if s = "warn" then some .warn
  else if s = "error" then some .error
  else if s = "critical" then some .critical
  else none

/-- Split a character list at every occurrence of the separator; always
returns at least one (possibly empty) group. -/
def splitOnChar (c : Char) : List Char → List (List Char)
  | [] => [[]]
  | x :: xs =>
    match splitOnChar c xs with
    | [] => if x = c then [[], []] else [[x]]
    | g :: gs => if x = c then [] :: g :: gs else (x :: g) :: gs

/-- Modelled from the spec: one directive rule is either a bare level or
`module=level`; anything else is unparseable (§3). -/
def parseRule (s : String) : Option Rule :=
  match splitOnChar '=' s.toList with
  | [lvl] => (parseLevel (String.mk lvl)).map (fun l => (none, l))
  | [m, lvl] => (parseLevel (String.mk lvl)).map (fun l => (some (String.mk m), l))
  | _ => none

/-- Modelled from the spec: a directive string is a comma-separated list of
rules; an empty string carries no rules; a single unparseable rule makes the
whole directive invalid (§3, §4.1). -/
def parseDirectives (s : String) : Option (List Rule) :=
  if s = "" then some []
  else ((splitOnChar ',' s.toList).map String.mk).mapM parseRule

/-- The latest `module=level` rule of the directive matching module `m`
exactly; later rules in the string take precedence over earlier ones. -/
def lastRuleFor (rules : List Rule) (m : String) : Option Level :=
  rules.foldl
    (fun acc r =>
      match r with
      | (some n, l) => if n = m then some l else acc
      | (none, _) => acc)
    none

/-- The latest bare global level of the directive, if any. -/
def lastGlobalRule (rules : List Rule) : Option Level :=
  rules.foldl
    (fun acc r =>
      match r with
      | (none, l) => some l
      | (some _, _) => acc)
    none

/-- The builder state of src/lib.rs (struct SlogKickstarter). -/
structure SlogKickstarter where
  default_filter_level : Level
  debug_modules : List String
  service_name : String
  init_std_log : Bool
  use_json_logging : Bool
deriving DecidableEq, Repr

/-- SlogKickstarter::new: default level Info, no debug modules, stdlog bridge
enabled, JSON logging iff the RUST_LOG_JSON environment variable (read here,
at builder creation) equals "1". -/
def new (service_name : String) (rust_log_json : Option String) : SlogKickstarter :=
  { default_filter_level := .info
    debug_modules := []
    service_name := service_name
    init_std_log := true
    use_json_logging := (rust_log_json.map (fun v => v == "1")).getD false }

/-- SlogKickstarter::with_debug_log_for: push the module onto debug_modules. -/
def with_debug_log_for (self : SlogKickstarter) (module_name : String) : SlogKickstarter :=
  { self with debug_modules := self.debug_modules ++ [module_name] }

/-- SlogKickstarter::with_default_level. -/
def with_default_level (self : SlogKickstarter) (level : Level) : SlogKickstarter :=
  { self with default_filter_level := level }

/-- SlogKickstarter::with_json_logging. -/
def with_json_logging (self : SlogKickstarter) : SlogKickstarter :=
  { self with use_json_logging := true }

/-- SlogKickstarter::without_json_logging. -/
def without_json_logging (self : SlogKickstarter) : SlogKickstarter :=
  { self with use_json_logging := false }

/-- SlogKickstarter::without_stdlog. -/
def without_stdlog (self : SlogKickstarter) : SlogKickstarter :=
  { self with init_std_log := false }

/-- One fluent builder step, for reasoning about chains of calls. -/
inductive BuilderOp where
  | withDebugLogFor (m : String)
  | withDefaultLevel (l : Level)
  | withJsonLogging
  | withoutJsonLogging
  | withoutStdlog
deriving DecidableEq, Repr

/-- Apply one builder step. -/
def applyOp (cfg : SlogKickstarter) : BuilderOp → SlogKickstarter
  | .withDebugLogFor m => with_debug_log_for cfg m
  | .withDefaultLevel l => with_default_level cfg l
  | .withJsonLogging => with_json_logging cfg
  | .withoutJsonLogging => without_json_logging cfg
  | .withoutStdlog => without_stdlog cfg

/-- Apply a chain of fluent builder steps in order. -/
def applyOps (cfg : SlogKickstarter) : List BuilderOp → SlogKickstarter
  | [] => cfg
  | op :: rest => applyOps (applyOp cfg op) rest

/-- The JSON flag a chain of steps leaves behind: the last JSON-forcing or
JSON-disabling step wins, the given default standing if there is none. -/
def lastJsonChoice (dflt : Bool) : List BuilderOp → Bool
  | [] => dflt
  | .withDebugLogFor _ :: rest => lastJsonChoice dflt rest
  | .withDefaultLevel _ :: rest => lastJsonChoice dflt rest
  | .withJsonLogging :: rest => lastJsonChoice true rest
  | .withoutJsonLogging :: rest => lastJsonChoice false rest
  | .withoutStdlog :: rest => lastJsonChoice dflt rest

/-- The environment as observed at a given moment: the format-selecting
variable RUST_LOG_JSON and the directive variable RUST_LOG. -/
structure Env where
  rust_log_json : Option String
  rust_log : Option String
deriving DecidableEq, Repr

/-- An emitted log event: level, formatted message, origin module path and the
structured key/value pairs attached at the call site. -/
structure Record where
  level : Level
  msg : String
  module : String
  dynamic_fields : List (String × String)
deriving DecidableEq, Repr

/-- Modelled from the spec: the Level Resolver of §4.1 is implemented by the
env-logger dependency, outside src/.  Precedence, lowest to highest: built-in
default Info, builder default level, builder per-module override (the builder
registers Debug overrides only, exact-name match), directive bare global
level, directive per-module rule. -/
def effectiveLevel (cfg : SlogKickstarter) (rules : List Rule) (m : String) : Level :=
  match lastRuleFor rules m with
  | some l => l
  | none =>
    match lastGlobalRule rules with
    | some l => l
    | none =>
      if cfg.debug_modules.contains m then .debug else cfg.default_filter_level

/-- Whether the assembled pipeline retains a record, given the builder state
and the RUST_LOG directive variable as read at build time; `none` when the
directive is invalid and the pipeline is never assembled. -/
def recordRetained (cfg : SlogKickstarter) (rust_log : Option String) (r : Record) :
    Option Bool :=
  (parseDirectives (rust_log.getD "")).map
    (fun rules => retains (effectiveLevel cfg rules r.module) r.level)

/-- The two output encodings of the Drain Factory. -/
inductive Format where
  | structured
  | terminal
deriving DecidableEq, Repr

/-- The format init picks: JSON (structured) iff use_json_logging, as set at
builder creation or by the forcing steps. -/
def chosenFormat (cfg : SlogKickstarter) : Format :=
  if cfg.use_json_logging then .structured else .terminal

/-- Following the specification's words (§6, read once at build time): the
format said to be selected from the format variable's value at build time;
kept separate from `chosenFormat` to compare the code against the claim. -/
def spec_formatFromBuildEnv (rust_log_json_at_build : Option String) : Format :=
  if rust_log_json_at_build = some "1" then .structured else .terminal

/-- Fatal configuration error of §7: a malformed directive string. -/
inductive ConfigError where
  | configurationError
deriving DecidableEq, Repr

/-- Error of installing the Legacy Facade Bridge while one is live (§7). -/
inductive BridgeError where
  | alreadyInstalled
deriving DecidableEq, Repr

/-- Modelled from the spec: slog_stdlog::init installs process-wide forwarding
at most once per process; a second attempt while one is active fails with
AlreadyInstalled and leaves the first installation intact (§4.5, §7).  Returns
the attempt's result and the new process-wide installation state. -/
def installStdlog (installed : Bool) : Except BridgeError Unit × Bool :=
  if installed then (.error .alreadyInstalled, installed) else (.ok (), true)

/-- The compile-time crate version tag env!(CARGO_PKG_VERSION) baked into the
root logger's context; its concrete value does not matter here. -/
def cargoPkgVersion : String := "0.1.0"

/-- The caller-visible outcome of SlogKickstarter::init: the selected output
format, the root logger's static context fields and the parsed directive
rules.  Mirroring the source signature `fn init(&self) -> Logger`, it carries
no bridge handle and no bridge error. -/
structure InitOutput where
  format : Format
  staticKV : List (String × String)
  rules : List Rule
deriving DecidableEq, Repr

/-- SlogKickstarter::init: parse the RUST_LOG directive read at build time
(failing with a configuration error when it is malformed), attempt the stdlog
bridge installation when init_std_log is set — discarding its result, as the
source's `let _guard = slog_stdlog::init();` does — and assemble the root
logger with its static context fields.  Takes the builder by shared reference:
the builder state is not modified.  The process-wide bridge installation state
is threaded explicitly and returned alongside the output. -/
def init (cfg : SlogKickstarter) (env : Env) (bridgeInstalled : Bool) :
    Except ConfigError (InitOutput × Bool) :=
  match parseDirectives ((env.rust_log).getD "") with
  | none => .error .configurationError
  | some rules =>
    let bridgeState :=
      if cfg.init_std_log then (installStdlog bridgeInstalled).2 else bridgeInstalled
    .ok
      ({ format := chosenFormat cfg
         staticKV := [("version", cargoPkgVersion), ("service", cfg.service_name),
                      ("log_type", "application"), ("application_type", "service")]
         rules := rules }, bridgeState)

/-- The context fields the root logger attaches to one emitted record: the
static fields plus the dynamic "module" field, recomputed from this record's
own call-site module path by the FnValue closure at each emission. -/
def rootEmitFields (out : InitOutput) (r : Record) : List (String × String) :=
  out.staticKV ++ [("module", r.module)]

/-- A wall-clock local time, to seconds precision. -/
structure LocalTime where
  year : Nat
  month : Nat
  day : Nat
  hour : Nat
  minute : Nat
  second : Nat
deriving DecidableEq, Repr

/-- Two-digit zero padding. -/
def pad2 (n : Nat) : String :=
  if n < 10 then "0" ++ toString n else toString n

/-- Modelled from the spec: chrono's Local::now().to_rfc3339_opts(Secs, true),
the current local time rendered in RFC 3339 to seconds precision (§4.2). -/
def toRfc3339Secs (t : LocalTime) : String :=
  toString t.year ++ "-" ++ pad2 t.month ++ "-" ++ pad2 t.day ++ "T" ++
    pad2 t.hour ++ ":" ++ pad2 t.minute ++ ":" ++ pad2 t.second ++ "Z"

/-- Modelled from the spec: the record's level rendered as a lowercase string
(the rendering itself lives in the slog dependency, outside src/). -/
def Level.as_str : Level → String
  | .trace => "trace"
  | .debug => "debug"
  | .info => "info"
  | .warn => "warn"
  | .error => "error"
  | .critical => "critical"

/-- The JSON object serialized for one record under structured output: the
"@timestamp", "loglevel" and "msg" keys added in setup_json_logging, the root
logger's static and dynamic context fields, and the record's own call-site
fields, all merged at the top level. -/
def jsonSerialize (out : InitOutput) (now : LocalTime) (r : Record) :
    List (String × String) :=
  [("@timestamp", toRfc3339Secs now), ("loglevel", r.level.as_str), ("msg", r.msg)]
    ++ rootEmitFields out r ++ r.dynamic_fields

/-- The state of the Async Boundary: the queue of submitted records and
whether the single background consumer is still alive. -/
structure AsyncState where
  queue : List Record
  consumerAlive : Bool
deriving DecidableEq, Repr

/-- The error a caller could conceivably observe from emitting a record; the
pipeline never produces one. -/
inductive EmitError where
  | outputFailure
deriving DecidableEq, Repr

/-- Modelled from the spec: caller-side emission through the Async Boundary is
a non-blocking enqueue (§4.3); the machinery lives in the slog-async
dependency, outside src/. -/
def emitRecord (st : AsyncState) (r : Record) : Except EmitError AsyncState :=
  .ok { st with queue := st.queue ++ [r] }

/-- Modelled from the spec: the background consumer takes queued records in
submission order and writes them; a write failure terminates the consumer and
later records are dropped, without any error reaching producers (§4.3). -/
def consumeStep (writeOk : Record → Bool) (st : AsyncState) :
    AsyncState × Option Record :=
  if st.consumerAlive then
    match st.queue with
    | [] => (st, none)
    | r :: rest =>
      if writeOk r then ({ queue := rest, consumerAlive := true }, some r)
      else ({ queue := rest, consumerAlive := false }, none)
  else (st, none)

/-- One emission followed by one consumer step, with consumer write outcomes
given by the oracle `writeOk`. -/
def emitThenConsume (writeOk : Record → Bool) (st : AsyncState) (r : Record) :
    Except EmitError AsyncState :=
  match emitRecord st r with
  | .error e => .error e
  | .ok st2 => .ok (consumeStep writeOk st2).1

/-- Run a sequence of emissions through the async pipeline, the consumer
stepping after each one. -/
def runPipeline (writeOk : Record → Bool) (st : AsyncState) :
    List Record → Except EmitError AsyncState
  | [] => .ok st
  | r :: rs =>
    match emitThenConsume writeOk st r with
    | .error e => .error e
    | .ok st2 => runPipeline writeOk st2 rs

/-- C1: a level setting supplied by the runtime directive wins over the
corresponding builder-time setting: whenever the directive has a rule for the
origin module, that rule's level is the effective level whatever the builder
state holds; and whenever the directive has no rule for the module but has a
bare global level, that global level is the effective level whatever the
builder state holds — in particular it overrides both the builder default and
any builder per-module override. -/
theorem c1_directive_wins (cfg : SlogKickstarter) (rules : List Rule) (m : String) :
    (∀ l, lastRuleFor rules m = some l → effectiveLevel cfg rules m = l) ∧
    (lastRuleFor rules m = none → ∀ g, lastGlobalRule rules = some g →
      effectiveLevel cfg rules m = g) := by
  constructor
  · intro l h
    simp [effectiveLevel, h]
  · intro h g hg
    simp [effectiveLevel, h, hg]

/-- Witness for C1: a directive rule module_x=trace beats the builder-time
Debug override for module_x, and a bare global directive level debug beats
the builder-configured Info default for a module without its own rule. -/
theorem c1_directive_wins_witness :
    effectiveLevel (with_debug_log_for (new "svc" none) "module_x")
      [(some "module_x", Level.trace)] "module_x" = Level.trace ∧
    effectiveLevel (new "svc" none) [(none, Level.debug)] "module_y" = Level.debug :=
  ⟨(c1_directive_wins (with_debug_log_for (new "svc" none) "module_x")
      [(some "module_x", Level.trace)] "module_x").1 Level.trace rfl,
   (c1_directive_wins (new "svc" none) [(none, Level.debug)] "module_y").2 rfl
      Level.debug rfl⟩

/-- C2: with the runtime directive variable unset, a Debug-level record from a
module registered as a builder-time Debug override is retained, while a
Debug-level record from a module without an override — whose effective level
is the Info default — is dropped; and in general the pipeline retains a
record exactly when its level index is at least the effective threshold's
index of its origin module. -/
theorem c2_builder_debug_override (cfg : SlogKickstarter) (m mo msg msgo : String)
    (fs fso : List (String × String))
    (hm : cfg.debug_modules.contains m = true)
    (hmo : cfg.debug_modules.contains mo = false)
    (hd : cfg.default_filter_level = Level.info) :
    recordRetained cfg none ⟨Level.debug, msg, m, fs⟩ = some true ∧
    recordRetained cfg none ⟨Level.debug, msgo, mo, fso⟩ = some false ∧
    (∀ (rules : List Rule) (r : Record),
      retains (effectiveLevel cfg rules r.module) r.level = true ↔
        (effectiveLevel cfg rules r.module).idx ≤ r.level.idx) := by
  have hm2 : m ∈ cfg.debug_modules := by simpa using hm
  have hmo2 : mo ∉ cfg.debug_modules := by simpa using hmo
  refine ⟨?_, ?_, ?_⟩
  · simp [recordRetained, parseDirectives, effectiveLevel, lastRuleFor, lastGlobalRule,
      retains, hm2, Level.idx]
  · simp [recordRetained, parseDirectives, effectiveLevel, lastRuleFor, lastGlobalRule,
      retains, hmo2, hd, Level.idx]
  · intro rules r
    simp [retains]

/-- Witness for C2: the builder registers module "app" for debug; with
RUST_LOG unset, a Debug record from "app" is retained and a Debug record
from "other" is dropped. -/
theorem c2_builder_debug_override_witness :
    recordRetained (with_debug_log_for (new "svc" none) "app") none
      ⟨Level.debug, "hi", "app", []⟩ = some true ∧
    recordRetained (with_debug_log_for (new "svc" none) "app") none
      ⟨Level.debug, "hi", "other", []⟩ = some false :=
  ⟨(c2_builder_debug_override (with_debug_log_for (new "svc" none) "app")
      "app" "other" "hi" "hi" [] [] rfl rfl rfl).1,
   (c2_builder_debug_override (with_debug_log_for (new "svc" none) "app")
      "app" "other" "hi" "hi" [] [] rfl rfl rfl).2.1⟩

/-- C3: when the directive variable present at initialization holds a
syntactically invalid directive string, init fails immediately with the
configuration error; it never returns a logger output. -/
theorem c3_invalid_directive_fails (cfg : SlogKickstarter) (env : Env) (b : Bool)
    (s : String) (hs : env.rust_log = some s) (hbad : parseDirectives s = none) :
    init cfg env b = .error ConfigError.configurationError := by
  simp [init, hs, hbad]

/-- Witness for C3: the directive string "nonsense" is unparseable and init
fails with the configuration error on it. -/
theorem c3_invalid_directive_fails_witness :
    init (new "svc" none) ⟨none, some "nonsense"⟩ true =
      .error ConfigError.configurationError :=
  c3_invalid_directive_fails (new "svc" none) ⟨none, some "nonsense"⟩ true
    "nonsense" rfl rfl

/-- C4: with structured output selected, the serialized object of every
emitted record contains the "@timestamp" key holding the current local time
in RFC 3339 at seconds precision, the "loglevel" key holding the record's
level as a lowercase string, the "msg" key holding the message, and every
static and dynamic attached field merged at the top level. -/
theorem c4_json_object_keys (cfg : SlogKickstarter) (env : Env) (b : Bool)
    (out : InitOutput) (st : Bool) (now : LocalTime) (r : Record)
    (hjson : cfg.use_json_logging = true)
    (hinit : init cfg env b = .ok (out, st)) :
    out.format = Format.structured ∧
    ("@timestamp", toRfc3339Secs now) ∈ jsonSerialize out now r ∧
    ("loglevel", r.level.as_str) ∈ jsonSerialize out now r ∧
    (r.level.as_str).toList.all Char.isLower = true ∧
    ("msg", r.msg) ∈ jsonSerialize out now r ∧
    (∀ kv ∈ out.staticKV, kv ∈ jsonSerialize out now r) ∧
    ("module", r.module) ∈ jsonSerialize out now r ∧
    (∀ kv ∈ r.dynamic_fields, kv ∈ jsonSerialize out now r) := by
  have hfmt : out.format = Format.structured := by
    cases hp : parseDirectives ((env.rust_log).getD "") with
    | none => simp [init, hp] at hinit
    | some rules =>
      simp [init, hp] at hinit
      rw [← hinit.1]
      simp [chosenFormat, hjson]
  refine ⟨hfmt, ?_, ?_, ?_, ?_, ?_, ?_, ?_⟩
  · simp [jsonSerialize]
  · simp [jsonSerialize]
  · cases r.level <;> decide
  · simp [jsonSerialize]
  · intro kv hkv
    simp [jsonSerialize, rootEmitFields]
    tauto
  · simp [jsonSerialize, rootEmitFields]
  · intro kv hkv
    simp [jsonSerialize, rootEmitFields]
    tauto

/-- Witness for C4: a concrete structured-output configuration, time and
record on which every listed key is present in the serialized object. -/
theorem c4_json_object_keys_witness :
    (init (with_json_logging (new "svc" none)) ⟨some "1", none⟩ false).isOk = true ∧
    ("msg", "hello") ∈
      jsonSerialize
        { format := .structured,
          staticKV := [("version", cargoPkgVersion), ("service", "svc"),
                       ("log_type", "application"), ("application_type", "service")],
          rules := [] }
        ⟨2024, 1, 2, 3, 4, 5⟩ ⟨Level.info, "hello", "app", [("k", "v")]⟩ :=
  ⟨rfl,
   (c4_json_object_keys (with_json_logging (new "svc" none)) ⟨some "1", none⟩ false
      { format := .structured,
        staticKV := [("version", cargoPkgVersion), ("service", "svc"),
                     ("log_type", "application"), ("application_type", "service")],
        rules := [] }
      true ⟨2024, 1, 2, 3, 4, 5⟩ ⟨Level.info, "hello", "app", [("k", "v")]⟩
      rfl rfl).2.2.2.2.1⟩

/-- C5 counterexample: with the bridge already installed and the stdlog flag
set, init still returns a normal logger output with no bridge handle and no
error — the AlreadyInstalled failure of the second installation attempt is
not returned to the caller, and the prior installation stays in place. -/
theorem c5_counterexample :
    init (new "svc" none) ⟨none, none⟩ true =
      .ok ({ format := .terminal,
             staticKV := [("version", cargoPkgVersion), ("service", "svc"),
                          ("log_type", "application"), ("application_type", "service")],
             rules := [] }, true) := rfl

/-- C5 amended: init attempts the bridge installation when init_std_log is
set; an attempt while an installation is live does fail with AlreadyInstalled
inside the install step and leaves the live installation intact, but init
discards that result — the caller receives only the logger output, never the
error and never a bridge handle, and an attempt with no live installation
installs the bridge. -/
theorem c5_bridge_result_discarded (cfg : SlogKickstarter) (env : Env) (b : Bool)
    (rules : List Rule)
    (hp : parseDirectives ((env.rust_log).getD "") = some rules) :
    (installStdlog true).1 = .error BridgeError.alreadyInstalled ∧
    (installStdlog true).2 = true ∧
    (installStdlog false).2 = true ∧
    (∃ out st, init cfg env b = .ok (out, st)) := by
  refine ⟨rfl, rfl, rfl, ?_⟩
  unfold init
  rw [hp]
  exact ⟨_, _, rfl⟩

/-- Witness for C5 amended: concrete builder and environment on which the
install step reports AlreadyInstalled yet init returns a normal output. -/
theorem c5_bridge_result_discarded_witness :
    (installStdlog true).1 = .error BridgeError.alreadyInstalled ∧
    (∃ out st, init (new "svc" none) ⟨none, none⟩ true = .ok (out, st)) :=
  ⟨(c5_bridge_result_discarded (new "svc" none) ⟨none, none⟩ true [] rfl).1,
   (c5_bridge_result_discarded (new "svc" none) ⟨none, none⟩ true [] rfl).2.2.2⟩

/-- C6 counterexample: the format variable is read when the builder is
created, not when build runs.  With RUST_LOG_JSON="1" at builder creation and
RUST_LOG_JSON="0" at build time, the build step selects structured output,
while the claim demands the build-time value win, namely terminal. -/
theorem c6_counterexample :
    init (new "svc" (some "1")) ⟨some "0", none⟩ false =
      .ok ({ format := .structured,
             staticKV := [("version", cargoPkgVersion), ("service", "svc"),
                          ("log_type", "application"), ("application_type", "service")],
             rules := [] }, true) ∧
    spec_formatFromBuildEnv (some "0") = Format.terminal ∧
    Format.structured ≠ Format.terminal :=
  ⟨rfl, rfl, by decide⟩

/-- C6 amended: the format-selecting variable is read once, at builder
creation: with no format-forcing step called, the format chosen by the build
step equals the one determined by the variable's value at creation time, and
the build step's outcome is entirely independent of the format variable's
value at build time (only the directive variable is read at build time). -/
theorem c6_format_read_at_creation (name : String) (vCreate : Option String)
    (envB envB2 : Env) (b : Bool)
    (hsame : envB.rust_log = envB2.rust_log) :
    chosenFormat (new name vCreate) = spec_formatFromBuildEnv vCreate ∧
    init (new name vCreate) envB b = init (new name vCreate) envB2 b := by
  constructor
  · by_cases h : vCreate = some "1"
    · simp [chosenFormat, spec_formatFromBuildEnv, new, h]
    · cases vCreate with
      | none => simp [chosenFormat, spec_formatFromBuildEnv, new, h]
      | some v =>
        have hv : ¬ v = "1" := by
          intro hv
          exact h (by rw [hv])
        simp [chosenFormat, spec_formatFromBuildEnv, new, h, hv]
  · simp [init, hsame]

/-- Witness for C6 amended: created with RUST_LOG_JSON="1", the chosen format
is structured whatever the variable holds at build time. -/
theorem c6_format_read_at_creation_witness :
    chosenFormat (new "svc" (some "1")) = spec_formatFromBuildEnv (some "1") ∧
    init (new "svc" (some "1")) ⟨some "0", none⟩ false =
      init (new "svc" (some "1")) ⟨some "1", none⟩ false :=
  c6_format_read_at_creation "svc" (some "1") ⟨some "0", none⟩ ⟨some "1", none⟩
    false rfl

/-- C7: every record emitted through a logger produced by init carries the
static fields "version", "service" (the configured service name),
"log_type" = "application" and "application_type" = "service", plus exactly
one dynamic "module" field holding the emitting record's own call-site module
path — recomputed per record, as the fields of two distinct records show. -/
theorem c7_root_context_fields (cfg : SlogKickstarter) (env : Env) (b : Bool)
    (out : InitOutput) (st : Bool) (r r2 : Record)
    (hinit : init cfg env b = .ok (out, st)) :
    ("version", cargoPkgVersion) ∈ rootEmitFields out r ∧
    ("service", cfg.service_name) ∈ rootEmitFields out r ∧
    ("log_type", "application") ∈ rootEmitFields out r ∧
    ("application_type", "service") ∈ rootEmitFields out r ∧
    (rootEmitFields out r).filter (fun kv => kv.1 == "module") = [("module", r.module)] ∧
    (rootEmitFields out r2).filter (fun kv => kv.1 == "module") = [("module", r2.module)] := by
  have hkv : out.staticKV =
      [("version", cargoPkgVersion), ("service", cfg.service_name),
       ("log_type", "application"), ("application_type", "service")] := by
    cases hp : parseDirectives ((env.rust_log).getD "") with
    | none => simp [init, hp] at hinit
    | some rules =>
      simp [init, hp] at hinit
      rw [← hinit.1]
  refine ⟨?_, ?_, ?_, ?_, ?_, ?_⟩ <;>
    simp [rootEmitFields, hkv, List.filter]

/-- Witness for C7: a concrete configuration and two concrete records, each
record's "module" field holding its own module path. -/
theorem c7_root_context_fields_witness :
    ("service", "svc") ∈
      rootEmitFields
        { format := .terminal,
          staticKV := [("version", cargoPkgVersion), ("service", "svc"),
                       ("log_type", "application"), ("application_type", "service")],
          rules := [] }
        ⟨Level.info, "a", "mod_a", []⟩ ∧
    (rootEmitFields
        { format := .terminal,
          staticKV := [("version", cargoPkgVersion), ("service", "svc"),
                       ("log_type", "application"), ("application_type", "service")],
          rules := [] }
        ⟨Level.warn, "b", "mod_b", []⟩).filter (fun kv => kv.1 == "module") =
      [("module", "mod_b")] :=
  ⟨(c7_root_context_fields (new "svc" none) ⟨none, none⟩ false
      { format := .terminal,
        staticKV := [("version", cargoPkgVersion), ("service", "svc"),
                     ("log_type", "application"), ("application_type", "service")],
        rules := [] }
      true ⟨Level.info, "a", "mod_a", []⟩ ⟨Level.warn, "b", "mod_b", []⟩ rfl).2.1,
   (c7_root_context_fields (new "svc" none) ⟨none, none⟩ false
      { format := .terminal,
        staticKV := [("version", cargoPkgVersion), ("service", "svc"),
                     ("log_type", "application"), ("application_type", "service")],
        rules := [] }
      true ⟨Level.info, "a", "mod_a", []⟩ ⟨Level.warn, "b", "mod_b", []⟩ rfl).2.2.2.2.2⟩

/-- C8: a caller emitting records through the async pipeline never observes
an error, whatever the consumer's write outcomes are: running any sequence of
emissions from any starting state — including states whose consumer has
already died of a write failure — yields a normal result for every emission. -/
theorem c8_emission_never_errors (writeOk : Record → Bool) (st : AsyncState)
    (rs : List Record) :
    ∃ stF, runPipeline writeOk st rs = .ok stF := by
  induction rs generalizing st with
  | nil => exact ⟨st, rfl⟩
  | cons r rest ih =>
    obtain ⟨stF, hF⟩ := ih (consumeStep writeOk { st with queue := st.queue ++ [r] }).1
    exact ⟨stF, by simp [runPipeline, emitThenConsume, emitRecord, hF]⟩

/-- The JSON flag after a chain of builder steps is the last JSON choice in
the chain, over the starting flag. -/
theorem applyOps_use_json (ops : List BuilderOp) (cfg : SlogKickstarter) :
    (applyOps cfg ops).use_json_logging = lastJsonChoice cfg.use_json_logging ops := by
  induction ops generalizing cfg with
  | nil => rfl
  | cons op rest ih =>
    cases op <;>
      simp [applyOps, applyOp, lastJsonChoice, ih, with_debug_log_for,
        with_default_level, with_json_logging, without_json_logging, without_stdlog]

/-- The flag new sets from the format variable equals the comparison of the
variable's value with "1". -/
theorem new_use_json (name : String) (v : Option String) :
    (new name v).use_json_logging = decide (v = some "1") := by
  cases v with
  | none => rfl
  | some s =>
    by_cases h : s = "1" <;> simp [new, h]

/-- C9: the builder enables structured output exactly when the format
variable equals "1" at builder creation — any other value and an unset
variable select terminal output — and a chain of JSON-forcing or
JSON-disabling steps overrides this with the last such step winning. -/
theorem c9_json_flag (name : String) (v : Option String) (ops : List BuilderOp) :
    (new name v).use_json_logging = decide (v = some "1") ∧
    chosenFormat (new name v) =
      (if v = some "1" then Format.structured else Format.terminal) ∧
    (applyOps (new name v) ops).use_json_logging =
      lastJsonChoice (decide (v = some "1")) ops ∧
    chosenFormat (applyOps (new name v) ops) =
      (if lastJsonChoice (decide (v = some "1")) ops then Format.structured
       else Format.terminal) := by
  have hflag := new_use_json name v
  have hops := applyOps_use_json ops (new name v)
  rw [hflag] at hops
  refine ⟨hflag, ?_, hops, ?_⟩
  · by_cases h : v = some "1" <;> simp [chosenFormat, new_use_json, h]
  · simp [chosenFormat, hops]

/-- C10: every builder step modifies only its own field — the per-module
debug step appends one module, the default-level step replaces the default
level, the JSON steps set only the format flag, the stdlog step clears only
the bridge flag, and no step touches the service name — and init, taking the
builder by shared reference, yields a caller-visible output that does not
depend on the pre-existing bridge state, so build can be invoked repeatedly
on the same configuration with the same result. -/
theorem c10_builder_frame (cfg : SlogKickstarter) (m : String) (l : Level)
    (env : Env) (b b2 : Bool) :
    ((with_debug_log_for cfg m).debug_modules = cfg.debug_modules ++ [m] ∧
     (with_debug_log_for cfg m).default_filter_level = cfg.default_filter_level ∧
     (with_debug_log_for cfg m).service_name = cfg.service_name ∧
     (with_debug_log_for cfg m).init_std_log = cfg.init_std_log ∧
     (with_debug_log_for cfg m).use_json_logging = cfg.use_json_logging) ∧
    ((with_default_level cfg l).default_filter_level = l ∧
     (with_default_level cfg l).debug_modules = cfg.debug_modules ∧
     (with_default_level cfg l).service_name = cfg.service_name ∧
     (with_default_level cfg l).init_std_log = cfg.init_std_log ∧
     (with_default_level cfg l).use_json_logging = cfg.use_json_logging) ∧
    ((with_json_logging cfg).use_json_logging = true ∧
     (with_json_logging cfg).debug_modules = cfg.debug_modules ∧
     (with_json_logging cfg).default_filter_level = cfg.default_filter_level ∧
     (with_json_logging cfg).service_name = cfg.service_name ∧
     (with_json_logging cfg).init_std_log = cfg.init_std_log) ∧
    ((without_json_logging cfg).use_json_logging = false ∧
     (without_json_logging cfg).debug_modules = cfg.debug_modules ∧
     (without_json_logging cfg).default_filter_level = cfg.default_filter_level ∧
     (without_json_logging cfg).service_name = cfg.service_name ∧
     (without_json_logging cfg).init_std_log = cfg.init_std_log) ∧
    ((without_stdlog cfg).init_std_log = false ∧
     (without_stdlog cfg).debug_modules = cfg.debug_modules ∧
     (without_stdlog cfg).default_filter_level = cfg.default_filter_level ∧
     (without_stdlog cfg).service_name = cfg.service_name ∧
     (without_stdlog cfg).use_json_logging = cfg.use_json_logging) ∧
    Except.map Prod.fst (init cfg env b) = Except.map Prod.fst (init cfg env b2) := by
  refine ⟨⟨rfl, rfl, rfl, rfl, rfl⟩, ⟨rfl, rfl, rfl, rfl, rfl⟩,
    ⟨rfl, rfl, rfl, rfl, rfl⟩, ⟨rfl, rfl, rfl, rfl, rfl⟩,
    ⟨rfl, rfl, rfl, rfl, rfl⟩, ?_⟩
  cases hp : parseDirectives ((env.rust_log).getD "") <;> simp [init, hp, Except.map]

end SlogKick
